import Mathlib

/-!
Verification of the asynchronous job orchestration core of the dyslexia-ai
repository, shallowly embedded in Lean 4.

The embedding follows the Python sources:
* `src/services/job_manager.py` (JobStatus, JobStep, step weights, progress
  percentage, save_result),
* `src/services/async_job_processor.py` (ProcessingStage bands, the stage
  progress updates of `_process_pipeline`, `_handle_completion`),
* `src/api/async_processing_router_v2.py` (`cancel_job`),
* `src/api/async_prd_router.py` (`process_pdf_async` admission),
* `src/services/prd_async_processor.py` (`process_pdf_pipeline`),
* `src/services/redis_pub_sub_service.py` (publish helpers),
* `src/services/s3_json_uploader.py` (key and URL construction),
* `src/services/spring_callback_service.py` (`send_document_complete`),
* `src/services/transformation_service.py` (retry, chunk processing),
* `src/pipelines/main_pipeline.py` (`transform_step`, `final_assembly_step`),
* `src/services/progress_service.py` (ProgressTracker).

Python floats are modelled as exact rationals (`ℚ`); external I/O (LLM, HTTP,
Redis, S3) is modelled by explicit oracle inputs describing the outcome of
each call; exceptions are modelled with `Except`/`Option` and early exits.
-/

namespace DyslexiaAI

/-! ## Job manager data model (`src/services/job_manager.py`) -/

/-- Embeds `JobStatus` enum of `job_manager.py` (lines 15-24).  The Python enum has
exactly the eight members below; there is no `CANCELLED` member. -/
inductive JobStatus
  | pending
  | preprocessing
  | transforming
  | generatingImages
  | analyzingPhonemes
  | webhookSending
  | completed
  | failed
  deriving DecidableEq, Repr

/-- The string `.value` of each `JobStatus` member, as written in the source. -/
def JobStatus.value : JobStatus → String
  | .pending => "pending"
  | .preprocessing => "preprocessing"
  | .transforming => "transforming"
  | .generatingImages => "generating_images"
  | .analyzingPhonemes => "analyzing_phonemes"
  | .webhookSending => "webhook_sending"
  | .completed => "completed"
  | .failed => "failed"

/-- The list of all `JobStatus` members in declaration order. -/
def jobStatusMembers : List JobStatus :=
  [.pending, .preprocessing, .transforming, .generatingImages,
   .analyzingPhonemes, .webhookSending, .completed, .failed]

/-- All `.value` strings of the `JobStatus` enum. -/
def jobStatusValues : List String := jobStatusMembers.map JobStatus.value

/-- Embeds `JobStep` enum of `job_manager.py` (lines 27-39). -/
inductive JobStep
  | initialization
  | pdfExtraction
  | textNormalization
  | chunking
  | blockTransformation
  | imageGeneration
  | phonemeAnalysis
  | blockWordPhonemeAnalysis
  | finalProcessing
  | webhookNotification
  | completedStep
  deriving DecidableEq, Repr

/-- Embeds `JobManager.step_weights` (job_manager.py lines 112-124), in the dict's
insertion order. -/
def stepWeights : List (JobStep × ℚ) :=
  [(.initialization, 5), (.pdfExtraction, 10), (.textNormalization, 10),
   (.chunking, 10), (.blockTransformation, 30), (.imageGeneration, 20),
   (.phonemeAnalysis, 10), (.blockWordPhonemeAnalysis, 3),
   (.finalProcessing, 1), (.webhookNotification, 1), (.completedStep, 0)]

/-- Embeds `list(self.step_weights.keys()).index(current_step)`
(job_manager.py line 182). -/
def stepIndex (s : JobStep) : ℕ :=
  (stepWeights.map Prod.fst).indexOf s

/-- Embeds `JobManager._calculate_progress_percentage` (job_manager.py lines 354-371):
if the index reaches the last entry return `100`; otherwise sum the weights of
the steps strictly before the index, divide by the total weight of all steps
except `COMPLETED`, and cap at `100`. -/
def calculateProgressPercentage (currentStepIndex : ℕ) : ℚ :=
  if currentStepIndex ≥ stepWeights.length - 1 then 100
  else
    min 100 (((((stepWeights.take currentStepIndex).map Prod.snd).sum)
      / (((stepWeights.filter (fun p => p.1 ≠ JobStep.completedStep)).map Prod.snd).sum))
      * 100)

/-- A stored progress snapshot: the fields of `JobProgress` that the claims
mention (job_manager.py lines 42-55). -/
structure Snapshot where
  status : JobStatus
  step : JobStep
  progress : ℚ
  deriving DecidableEq, Repr

/-- The snapshot written by `JobManager.update_progress` for a given status and
step (job_manager.py lines 165-214): the percentage is computed from the step's
index in the weight table. -/
def managerSnapshot (status : JobStatus) (step : JobStep) : Snapshot :=
  { status := status, step := step,
    progress := calculateProgressPercentage (stepIndex step) }

/-! ## Processing stages of the v2 processor
(`src/services/async_job_processor.py`) -/

/-- Embeds `ProcessingStage` enum (async_job_processor.py lines 20-33). -/
inductive ProcessingStage
  | initialization
  | pdfExtraction
  | textProcessing
  | blockTransformation
  | imageGeneration
  | phonemeAnalysis
  | finalProcessing
  deriving DecidableEq, Repr

/-- The `(start_percent, end_percent)` band of each stage, as declared in the
enum values. -/
def ProcessingStage.band : ProcessingStage → ℚ × ℚ
  | .initialization => (0, 5)
  | .pdfExtraction => (5, 20)
  | .textProcessing => (20, 30)
  | .blockTransformation => (30, 60)
  | .imageGeneration => (60, 75)
  | .phonemeAnalysis => (75, 90)
  | .finalProcessing => (90, 100)

/-- Embeds `AsyncJobProcessor._get_job_status` (async_job_processor.py lines 252-263). -/
def stageJobStatus : ProcessingStage → JobStatus
  | .initialization => .pending
  | .pdfExtraction => .preprocessing
  | .textProcessing => .preprocessing
  | .blockTransformation => .transforming
  | .imageGeneration => .generatingImages
  | .phonemeAnalysis => .analyzingPhonemes
  | .finalProcessing => .transforming

/-- Embeds `AsyncJobProcessor._get_job_step` (async_job_processor.py lines 265-276). -/
def stageJobStep : ProcessingStage → JobStep
  | .initialization => .initialization
  | .pdfExtraction => .pdfExtraction
  | .textProcessing => .chunking
  | .blockTransformation => .blockTransformation
  | .imageGeneration => .imageGeneration
  | .phonemeAnalysis => .phonemeAnalysis
  | .finalProcessing => .finalProcessing

/-- Clamp a stage-local progress value into `[0, 100]`
(`stage_progress = max(0, min(100, stage_progress))`,
async_job_processor.py line 165). -/
def clampStage (p : ℚ) : ℚ := max 0 (min 100 p)

/-- Embeds `total_progress = stage.start_percent +
(stage.end_percent - stage.start_percent) * (stage_progress / 100)`
(async_job_processor.py line 168). -/
def stageTotalProgress (stage : ProcessingStage) (stageProgress : ℚ) : ℚ :=
  let p := clampStage stageProgress
  stage.band.1 + (stage.band.2 - stage.band.1) * (p / 100)

/-- The snapshot written by `AsyncJobProcessor._update_stage_progress`
(async_job_processor.py lines 156-185) via `_update_job_progress_direct`. -/
def stageSnapshot (stage : ProcessingStage) (stageProgress : ℚ) : Snapshot :=
  { status := stageJobStatus stage, step := stageJobStep stage,
    progress := stageTotalProgress stage stageProgress }

/-- The initial snapshot written by `JobManager.create_job`
(job_manager.py lines 132-159): status `PENDING`, step `INITIALIZATION`,
`progress_percentage = 0.0`. -/
def createJobSnapshot : Snapshot :=
  { status := .pending, step := .initialization, progress := 0 }

/-- Embeds `OrchestrationOptions` (models.py lines 91-129).  The pydantic
model declares only `model_name`, `max_concurrent` and the three sub-option
models — in particular there is **no** `job_id` field.  The `job_id=...`
keyword that `AsyncJobProcessor._process_pipeline` passes when constructing it
(async_job_processor.py line 121) is an extra kwarg that pydantic v2 silently
drops under its default `extra="ignore"` policy.  Only the scalar fields are
kept here; the sub-option models do not matter to any claim. -/
structure OrchestrationOptions where
  modelName : String
  maxConcurrent : ℕ
  deriving DecidableEq, Repr

/-- The attribute names an `OrchestrationOptions` instance actually has
(models.py lines 95-101). -/
def orchestrationOptionFields : List String :=
  ["model_name", "max_concurrent", "preprocessing", "transformation",
   "phoneme_analysis"]

/-- Python attribute access `options.<name>` on an `OrchestrationOptions`:
an `AttributeError` (modelled as `.error name`) when the model has no such
field. -/
def getOptionAttr (name : String) : Except String Unit :=
  if name ∈ orchestrationOptionFields then .ok () else .error name

/-- Embeds `ProcessingOrchestrator.execute_complete_pipeline`
(orchestration_service.py lines 691-699): line 699 evaluates
`options.job_id` in a log f-string *before* the `try` block; since the model
has no `job_id` attribute, this raises `AttributeError` on every call and the
pipeline body (lines 701 onward) is unreachable — the `.ok` branch below is
dead code. -/
def executeCompletePipeline (_opts : OrchestrationOptions) : Except String Unit :=
  match getOptionAttr "job_id" with
  | .error e => .error e
  | .ok _ => .ok ()

/-- The stage-progress updates `AsyncJobProcessor._process_pipeline` would
perform *after* a successful `execute_complete_pipeline` call
(async_job_processor.py lines 139-146 and the `_execute_*` helpers, lines
296-326).  Dead code: the orchestrator call always raises. -/
def postOrchestratorStageUpdates : List (ProcessingStage × ℚ) :=
  [(.pdfExtraction, 100),
   (.blockTransformation, 0), (.blockTransformation, 100),
   (.imageGeneration, 0), (.imageGeneration, 100),
   (.phonemeAnalysis, 0), (.phonemeAnalysis, 100),
   (.finalProcessing, 0), (.finalProcessing, 100)]

/-- The snapshots written by `AsyncJobProcessor._handle_completion`
(async_job_processor.py lines 328-364).  With a webhook URL it writes a
`WEBHOOK_SENDING`/`WEBHOOK_NOTIFICATION` snapshot and then
`send_completion_webhook` calls `JobManager.save_result`
(webhook_service.py lines 48-69), which writes a `COMPLETED`/`COMPLETED`
snapshot.  Without a webhook URL, `save_result` writes the
`COMPLETED`/`COMPLETED` snapshot and `_handle_completion` writes it once more. -/
def completionSnapshots (hasWebhook : Bool) : List Snapshot :=
  if hasWebhook then
    [managerSnapshot .webhookSending .webhookNotification,
     managerSnapshot .completed .completedStep]
  else
    [managerSnapshot .completed .completedStep,
     managerSnapshot .completed .completedStep]

/-- All progress snapshots stored during one run of the v2 pipeline
(`start_processing` then `_process_pipeline`, async_job_processor.py lines
54-154), in write order: `create_job`'s initial snapshot, the
`INITIALIZATION` and `PDF_EXTRACTION`-start stage snapshots, and then the
branch on the orchestrator call's outcome.  Had `execute_complete_pipeline`
returned, the remaining stage updates and `_handle_completion`'s snapshots
would follow; in fact it raises `AttributeError` on every run, so
`_handle_failure` runs instead and — directly via `mark_job_failed`, or via
`send_failure_webhook` which also calls `mark_failed` (webhook_service.py
lines 102-103) — writes the single terminal `FAILED`/`COMPLETED` snapshot. -/
def v2RunSnapshots (hasWebhook : Bool) : List Snapshot :=
  [createJobSnapshot, stageSnapshot .initialization 0, stageSnapshot .pdfExtraction 0]
    ++ match executeCompletePipeline
          { modelName := "claude-sonnet-4-20250514", maxConcurrent := 8 } with
       | .ok _ =>
          (postOrchestratorStageUpdates.map fun p => stageSnapshot p.1 p.2)
            ++ completionSnapshots hasWebhook
       | .error _ => [managerSnapshot .failed .completedStep]

/-- The sequence of stored `global_progress` values of one v2 run. -/
def v2ProgressTrace (hasWebhook : Bool) : List ℚ :=
  (v2RunSnapshots hasWebhook).map Snapshot.progress

/-- Terminal statuses in the sense of the specification: `COMPLETED`, `FAILED`
(the code has no `CANCELLED` member). -/
def JobStatus.isTerminal : JobStatus → Bool
  | .completed => true
  | .failed => true
  | _ => false

/-! ## Registry state and `JobManager.save_result`
(`src/services/job_manager.py` lines 254-298) -/

/-- The Redis keys of one job that `JobManager` touches: the progress snapshot
under `job:progress:{job_id}` and the result under `job:result:{job_id}`.
`resultWrites` counts the `setex` calls on the result key. -/
structure RegistryState where
  progress : Option Snapshot
  resultStored : Bool
  resultWrites : ℕ
  deriving DecidableEq, Repr

/-- Embeds `JobManager.update_progress` as a state transformer: it looks up the
existing snapshot and, when it exists, overwrites it with the snapshot computed
from the step's weight index; when the job is unknown it returns `False` and
writes nothing (job_manager.py lines 165-218). -/
def updateProgressState (st : RegistryState) (status : JobStatus) (step : JobStep) :
    Bool × RegistryState :=
  match st.progress with
  | none => (false, st)
  | some _ => (true, { st with progress := some (managerSnapshot status step) })

/-- Embeds `JobManager.save_result` (job_manager.py lines 254-298): it requires only
that a progress snapshot exists; it then `setex`es the result record and
updates the progress snapshot to `COMPLETED`/`COMPLETED`.  The current status
of the snapshot is never inspected. -/
def saveResult (st : RegistryState) : Bool × RegistryState :=
  match st.progress with
  | none => (false, st)
  | some _ =>
    let st1 : RegistryState :=
      { st with resultStored := true, resultWrites := st.resultWrites + 1 }
    let st2 := (updateProgressState st1 .completed .completedStep).2
    (true, st2)

/-- Embeds `AsyncJobProcessor._handle_completion` (async_job_processor.py lines
328-364) as a registry-state transformer.  With a webhook URL: write the
`WEBHOOK_SENDING` snapshot, then `send_completion_webhook` calls `save_result`
on every outcome (webhook_service.py lines 48-69).  Without one: `save_result`
then one more `COMPLETED` progress update. -/
def handleCompletion (hasWebhook : Bool) (st : RegistryState) : RegistryState :=
  if hasWebhook then
    let st1 := (updateProgressState st .webhookSending .webhookNotification).2
    (saveResult st1).2
  else
    let st1 := (saveResult st).2
    (updateProgressState st1 .completed .completedStep).2

/-! ## The v2 cancel endpoint
(`src/api/async_processing_router_v2.py` lines 228-257) -/

/-- The response of `DELETE /async/v2/jobs/{job_id}`. -/
inductive CancelResponse
  | notFound404
  | success
  deriving DecidableEq, Repr

/-- The state visible to the v2 router: the keys of
`async_processor.active_jobs`, the set of asyncio tasks that received
`.cancel()`, the per-job registry, and the bus messages published so far
(the v2 processor publishes none). -/
structure V2State where
  activeJobs : List String
  cancelledTasks : List String
  registry : RegistryState
  publishedResults : List String
  publishedFailures : List String
  deriving DecidableEq, Repr

/-- Embeds `cancel_job` (async_processing_router_v2.py lines 228-257): 404 when the
job is not in `active_jobs`; otherwise `task.cancel()` and removal from
`active_jobs`.  No status is written and nothing is published. -/
def cancelJob (st : V2State) (jobId : String) : CancelResponse × V2State :=
  if jobId ∈ st.activeJobs then
    (.success,
     { st with activeJobs := st.activeJobs.erase jobId,
               cancelledTasks := st.cancelledTasks ++ [jobId] })
  else
    (.notFound404, st)

/-! ## PRD admission (`src/api/async_prd_router.py` lines 46-108,
`src/services/prd_async_processor.py` lines 36-46) -/

/-- The state of the PRD processor: the keys of
`PRDAsyncProcessor.active_jobs` and the pipeline tasks spawned so far.  No
statement in `async_prd_router.py` or `prd_async_processor.py` ever inserts
into `active_jobs`; the pipeline's `finally` block only deletes a key when
present (prd_async_processor.py lines 127-130). -/
structure PrdState where
  activeJobs : List String
  spawnedPipelines : List String
  deriving DecidableEq, Repr

/-- The initial PRD processor state (`self.active_jobs = {}`,
prd_async_processor.py line 40). -/
def prdInitialState : PrdState := { activeJobs := [], spawnedPipelines := [] }

/-- Embeds `PRDAsyncProcessor.is_job_active` (prd_async_processor.py lines 44-46):
`job_id in self.active_jobs`. -/
def isJobActive (st : PrdState) (jobId : String) : Bool :=
  st.activeJobs.contains jobId

/-- A `POST /process/async` request after FastAPI parsing: whether a file with
a filename was supplied, the filename, and the `job_id` form field. -/
structure AdmissionRequest where
  hasFile : Bool
  filename : String
  jobId : String
  deriving DecidableEq, Repr

/-- Responses of `process_pdf_async`. -/
inductive AdmissionResponse
  | badRequest400
  | conflict409
  | accepted202
  deriving DecidableEq, Repr

/-- Character-level "does `l` start with `p`" check (over the character lists
of the two strings). -/
def charListLeads : List Char → List Char → Bool
  | [], _ => true
  | _ :: _, [] => false
  | a :: as, b :: bs => a == b && charListLeads as bs

/-- Python `s.endswith(suf)`, computed on the character lists. -/
def strEndsWith (s suf : String) : Bool :=
  charListLeads suf.data.reverse s.data.reverse

/-- Python `s.lower()`, computed on the character list. -/
def strToLower (s : String) : String := ⟨s.data.map Char.toLower⟩

/-- Python `not job_id or not job_id.strip()` for a string form field: the
field is missing, empty, or whitespace-only. -/
def blankJobId (jobId : String) : Bool := jobId.data.all Char.isWhitespace

/-- Embeds `process_pdf_async` (async_prd_router.py lines 46-99): validate the file
(`file.filename.lower().endswith(".pdf")`) and `job_id`, check `is_job_active`
(409 on conflict), then schedule `process_pdf_pipeline` as a background task
and return 202.  Note that the admission path never inserts `job_id` into
`active_jobs`. -/
def processPdfAsync (st : PrdState) (req : AdmissionRequest) :
    AdmissionResponse × PrdState :=
  if !req.hasFile || req.filename = "" then (.badRequest400, st)
  else if !(strEndsWith (strToLower req.filename) ".pdf") then (.badRequest400, st)
  else if blankJobId req.jobId then (.badRequest400, st)
  else if isJobActive st req.jobId then (.conflict409, st)
  else
    (.accepted202,
     { st with spawnedPipelines := st.spawnedPipelines ++ [req.jobId] })

/-! ## S3 upload (`src/services/s3_json_uploader.py`) -/

/-- Bool-valued infix check on strings, used for the `"s3alias" in ap` and
`"s3-accesspoint" in ap` tests of `_is_access_point` / `_is_mrap_alias`. -/
def strHasSub (pat s : String) : Bool :=
  decide (pat.toList <:+: s.toList)

/-- The S3 configuration read from the environment in `S3JsonUploader.__init__`
(s3_json_uploader.py lines 22-51): the read target, the region, the key
prefix, and the parsed `S3_PRESIGN_RESULT_URL` preference (`none` = unset). -/
structure S3Config where
  bucketOrAp : String
  region : String
  keyPrefix : String
  presignPref : Option Bool
  deriving DecidableEq, Repr

/-- Embeds `S3JsonUploader._is_access_point` (s3_json_uploader.py lines 82-84). -/
def isAccessPoint (cfg : S3Config) : Bool :=
  cfg.bucketOrAp.startsWith "arn:aws:s3"
    || strHasSub "s3alias" cfg.bucketOrAp
    || strHasSub "s3-accesspoint" cfg.bucketOrAp

/-- Embeds `S3JsonUploader._is_mrap_alias` (s3_json_uploader.py lines 86-89). -/
def isMrapAlias (cfg : S3Config) : Bool :=
  strHasSub "s3alias" cfg.bucketOrAp

/-- Embeds `S3JsonUploader.generate_s3_key` (s3_json_uploader.py lines 72-80):
`{prefix}{YYYY/MM/DD}/{job_id}.json`. -/
def generateS3Key (cfg : S3Config) (date jobId : String) : String :=
  cfg.keyPrefix ++ date ++ "/" ++ jobId ++ ".json"

/-- The non-presigned URL branches of `S3JsonUploader._build_access_url`
(s3_json_uploader.py lines 111-120): all three produce an `https://`-prefixed
domain URL. -/
def domainUrl (cfg : S3Config) (s3Key : String) : String :=
  if isAccessPoint cfg then
    if isMrapAlias cfg then
      "https://" ++ cfg.bucketOrAp ++ ".s3-global.amazonaws.com/" ++ s3Key
    else
      "https://" ++ cfg.bucketOrAp ++ ".s3-accesspoint." ++ cfg.region
        ++ ".amazonaws.com/" ++ s3Key
  else
    "https://" ++ cfg.bucketOrAp ++ ".s3." ++ cfg.region ++ ".amazonaws.com/" ++ s3Key

/-- Embeds `S3JsonUploader._build_access_url` (s3_json_uploader.py lines 91-120).
`presigned` is the outcome of the external `generate_presigned_url` call:
`some u` when it returns the URL `u`, `none` when it raises (the code then
falls back to the domain URL). -/
def buildAccessUrl (cfg : S3Config) (presigned : Option String) (s3Key : String) :
    String :=
  let usePresign :=
    match cfg.presignPref with
    | some b => b
    | none => isAccessPoint cfg
  if usePresign then
    match presigned with
    | some u => u
    | none => domainUrl cfg s3Key
  else domainUrl cfg s3Key

/-! ## Spring document-complete callback
(`src/services/spring_callback_service.py` lines 17-51) -/

/-- Outcome of one HTTP POST: a status code, or a raised exception
(timeout, connection error, ...). -/
inductive HttpOutcome
  | status (code : ℕ)
  | exn
  deriving DecidableEq, Repr

/-- Embeds `send_document_complete` (spring_callback_service.py lines 17-51): when no
callback URL is configured, skip (0 requests); otherwise perform exactly one
POST and report success iff `200 <= status < 300`.  The second component
counts the HTTP requests made. -/
def sendDocumentComplete (url : Option String) (outcome : HttpOutcome) : Bool × ℕ :=
  match url with
  | none => (false, 0)
  | some _ =>
    match outcome with
    | .status c => (decide (200 ≤ c ∧ c < 300), 1)
    | .exn => (false, 1)

/-- Modelled from the spec: the retry policy the specification prescribes for
the document-complete callback — up to 3 attempts, later attempts only after
earlier ones fail (spec §4.C: "up to N attempts (default 3), exponential
backoff with jitter").  The code under `src/` contains no such retry loop for
this callback; this definition exists to compare the spec's policy with
`sendDocumentComplete`. -/
def specRetryCallback (url : Option String) (outcomes : List HttpOutcome) : Bool × ℕ :=
  match url with
  | none => (false, 0)
  | some _ =>
    let ok : HttpOutcome → Bool := fun o =>
      match o with
      | .status c => decide (200 ≤ c ∧ c < 300)
      | .exn => false
    let rec go : List HttpOutcome → ℕ → Bool × ℕ
      | [], n => (false, n)
      | o :: rest, n =>
        if ok o then (true, n + 1)
        else if n + 1 ≥ 3 then (false, n + 1)
        else go rest (n + 1)
    go outcomes 0

/-! ## The PRD pipeline run
(`src/services/prd_async_processor.py` lines 48-130) -/

/-- The status strings written by `_set_job_status` in
`process_pdf_pipeline`. -/
inductive PrdStatus
  | processing
  | completed
  | failed
  deriving DecidableEq, Repr

/-- A message published on one of the Redis channels
(redis_pub_sub_service.py lines 59-217). -/
inductive Msg
  | progress (p : ℚ) (step : Option String)
  | result (url : String)
  | failure (err : String)
  deriving DecidableEq, Repr

/-- The oracle describing the outcome of every external call one run of
`process_pdf_pipeline` can make.  A `false`/`none` entry means the call raises.
`_set_job_status` and `_save_result_to_file` swallow their own exceptions
(prd_async_processor.py lines 321-342, 132-149) and so have no oracle entry. -/
structure PipelineEnv where
  initialProgressOk : Bool
  pipelineOk : Bool
  storageProgress85Ok : Bool
  uploadOk : Bool
  presigned : Option String
  storageProgress95Ok : Bool
  publishResultOk : Bool
  callbackUrl : Option String
  callbackOutcome : HttpOutcome
  publishFailureOk : Bool
  deriving DecidableEq, Repr

/-- The observable outcome of one run of `process_pdf_pipeline`: the messages
that were actually delivered to Redis, the `_set_job_status` events in order
(status and the `progress` argument), the artifact URL obtained from
`upload_result_to_s3` (when reached and successful), and the number of
callback HTTP requests made. -/
structure RunOutcome where
  msgs : List Msg
  statusEvents : List (PrdStatus × Option ℚ)
  obtainedUrl : Option String
  callbackRequests : ℕ
  deriving DecidableEq, Repr

/-- The `except` branch of `process_pdf_pipeline` (lines 104-125): set status
`FAILED` and try to publish a failure message (a failure of that publish is
swallowed). -/
def failOutcome (env : PipelineEnv) (msgs : List Msg)
    (events : List (PrdStatus × Option ℚ)) (url : Option String) : RunOutcome :=
  { msgs := msgs ++ (if env.publishFailureOk then [Msg.failure "pipeline error"] else []),
    statusEvents := events ++ [(.failed, none)],
    obtainedUrl := url,
    callbackRequests := 0 }

/-- Embeds `PRDAsyncProcessor.process_pdf_pipeline` (prd_async_processor.py lines
48-130), step by step: set `PROCESSING`, publish progress 0, run the LCEL
pipeline, publish STORAGE 85, save the file (infallible), upload to S3,
publish STORAGE 95, set `COMPLETED`, publish the result message, and send the
Spring callback (its failure is caught).  Every raising step routes into the
`except` branch. -/
def processPdfPipeline (env : PipelineEnv) (cfg : S3Config) (jobId date : String) :
    RunOutcome :=
  let ev0 : List (PrdStatus × Option ℚ) := [(.processing, some 0)]
  if !env.initialProgressOk then failOutcome env [] ev0 none
  else
    let ms1 : List Msg := [.progress 0 none]
    if !env.pipelineOk then failOutcome env ms1 ev0 none
    else if !env.storageProgress85Ok then failOutcome env ms1 ev0 none
    else
      let ms2 := ms1 ++ [.progress 85 (some "STORAGE")]
      if !env.uploadOk then failOutcome env ms2 ev0 none
      else
        let url := buildAccessUrl cfg env.presigned (generateS3Key cfg date jobId)
        if !env.storageProgress95Ok then failOutcome env ms2 ev0 (some url)
        else
          let ms3 := ms2 ++ [.progress 95 (some "STORAGE")]
          let ev1 := ev0 ++ [(.completed, some 100)]
          if !env.publishResultOk then failOutcome env ms3 ev1 (some url)
          else
            { msgs := ms3 ++ [.result url],
              statusEvents := ev1,
              obtainedUrl := some url,
              callbackRequests := (sendDocumentComplete env.callbackUrl env.callbackOutcome).2 }

/-- The final stored status of a run: the last `_set_job_status` event. -/
def finalStatus (out : RunOutcome) : Option PrdStatus :=
  (out.statusEvents.getLast?).map Prod.fst

/-! ## Transformation (`src/services/transformation_service.py`,
`src/pipelines/main_pipeline.py`) -/

/-- A typed output block; the claims only inspect the `type` tag and identity
of blocks, so the model keeps the tag and the text payload. -/
structure Block where
  btype : String
  text : String
  deriving DecidableEq, Repr

/-- Embeds `exponential_backoff_retry` (transformation_service.py lines 111-138)
restricted to what the claims observe: the call tries the attempts in order
and returns the first success; when all `max_retries + 1` attempts fail it
re-raises (`none`).  Delays and jitter do not affect the returned value. -/
def backoffRetry : List (Option String) → Option String
  | [] => none
  | o :: rest =>
    match o with
    | some s => some s
    | none => backoffRetry rest

/-- The per-chunk oracle: the outcome of each API attempt for this chunk
(`some content` = the LLM call returned `content`; `none` = it raised). -/
structure ChunkEnv where
  attempts : List (Option String)
  deriving DecidableEq, Repr

/-- Embeds `process_single_chunk_async` (transformation_service.py lines 141-192):
the API call is wrapped with `exponential_backoff_retry(async_api_call,
max_retries=2)` — up to 3 attempts; exhaustion re-raises and propagates.  On
success the content is parsed with `clean_json_response`; a parse failure
yields the empty block list and the chunk still succeeds.  `parse` is the
oracle for `clean_json_response` on the returned content (it returns `[]`
exactly when every parse attempt in that function fails). -/
def processSingleChunk (parse : String → List Block) (env : ChunkEnv) :
    Except String (List Block) :=
  match backoffRetry (env.attempts.take 3) with
  | none => .error "api call failed"
  | some content => .ok (parse content)

/-- Embeds `transform_content_to_blocks` (transformation_service.py lines 225-298),
chunk phase: all chunks are processed and gathered with `asyncio.gather`
*without* `return_exceptions`, so the first chunk error propagates and the
whole transformation raises; on success the per-chunk block lists are
collected in chunk order. -/
def transformContentToBlocks (parse : String → List Block) :
    List ChunkEnv → Except String (List (List Block))
  | [] => .ok []
  | e :: rest =>
    match processSingleChunk parse e with
    | .error m => .error m
    | .ok bs =>
      match transformContentToBlocks parse rest with
      | .error m => .error m
      | .ok bss => .ok (bs :: bss)

/-- Embeds `transform_step` of the LCEL pipeline (main_pipeline.py lines 83-180): the
chunks are processed sequentially; `llm` is the oracle for
`chain.ainvoke({"content": chunk})` including the `ChatAnthropic`-internal
retries (`none` = the call finally raised).  On a chunk error the step
re-raises (line 160), failing the job; otherwise the parsed blocks are
appended in chunk order. -/
def transformStep (parse : String → List Block) (llm : String → Option String) :
    List String → Except String (List (List Block))
  | [] => .ok []
  | c :: rest =>
    match llm c with
    | none => .error "chunk failed"
    | some content =>
      match transformStep parse llm rest with
      | .error m => .error m
      | .ok bss => .ok (parse content :: bss)

/-- One page of the assembled document (main_pipeline.py lines 325-333). -/
structure Page where
  pageNumber : ℕ
  originalContent : String
  blocks : List Block
  deriving DecidableEq, Repr

/-- The page construction of `final_assembly_step` (main_pipeline.py lines
325-333): `for i, text in enumerate(chunk_texts)` append
`{page_number: i+1, original_content: text,
blocks: chunk_blocks[i] if i < len(chunk_blocks) else []}`. -/
def assemblePages (chunkTexts : List String) (chunkBlocks : List (List Block)) :
    List Page :=
  chunkTexts.enum.map fun p =>
    { pageNumber := p.1 + 1, originalContent := p.2,
      blocks := chunkBlocks.getD p.1 [] }

/-! ## ProgressTracker (`src/services/progress_service.py`) -/

/-- Embeds `ProgressData` (progress_service.py lines 17-37). -/
structure ProgressData where
  preprocessing : ℚ
  blockTransformation : ℚ
  phonemeAnalysis : ℚ
  blockWordPhonemeAnalysis : ℚ
  postProcessing : ℚ
  overall : ℚ
  deriving DecidableEq, Repr

/-- The all-zero initial progress (dataclass defaults). -/
def initialProgressData : ProgressData :=
  { preprocessing := 0, blockTransformation := 0, phonemeAnalysis := 0,
    blockWordPhonemeAnalysis := 0, postProcessing := 0, overall := 0 }

/-- Embeds `progress = max(0.0, min(100.0, progress))` (progress_service.py line 84). -/
def clampProgress (p : ℚ) : ℚ := max 0 (min 100 p)

/-- Embeds `ProgressTracker._calculate_overall_progress` (progress_service.py lines
118-138): the weighted average with the fixed weights 0.20 / 0.40 / 0.15 /
0.15 / 0.10. -/
def calculateOverall (d : ProgressData) : ℚ :=
  d.preprocessing * (20 / 100) + d.blockTransformation * (40 / 100)
    + d.phonemeAnalysis * (15 / 100) + d.blockWordPhonemeAnalysis * (15 / 100)
    + d.postProcessing * (10 / 100)

/-- Embeds `ProgressTracker.update_progress` (progress_service.py lines 75-107):
clamp, store into the named step, recompute `overall`; an unknown step name
logs a warning and returns without touching anything. -/
def updateProgress (d : ProgressData) (stepName : String) (p : ℚ) : ProgressData :=
  let q := clampProgress p
  if stepName = "preprocessing" then
    let d1 := { d with preprocessing := q }
    { d1 with overall := calculateOverall d1 }
  else if stepName = "block_transformation" then
    let d1 := { d with blockTransformation := q }
    { d1 with overall := calculateOverall d1 }
  else if stepName = "phoneme_analysis" then
    let d1 := { d with phonemeAnalysis := q }
    { d1 with overall := calculateOverall d1 }
  else if stepName = "block_word_phoneme_analysis" then
    let d1 := { d with blockWordPhonemeAnalysis := q }
    { d1 with overall := calculateOverall d1 }
  else if stepName = "post_processing" then
    let d1 := { d with postProcessing := q }
    { d1 with overall := calculateOverall d1 }
  else d

/-- A sequence of `update_progress` calls applied to a fresh tracker. -/
def runUpdates (calls : List (String × ℚ)) : ProgressData :=
  calls.foldl (fun d c => updateProgress d c.1 c.2) initialProgressData

/-- All five per-step fields lie in `[0, 100]` and `overall` is exactly the
weighted average of the stored fields. -/
def ProgressInv (d : ProgressData) : Prop :=
  (0 ≤ d.preprocessing ∧ d.preprocessing ≤ 100)
  ∧ (0 ≤ d.blockTransformation ∧ d.blockTransformation ≤ 100)
  ∧ (0 ≤ d.phonemeAnalysis ∧ d.phonemeAnalysis ≤ 100)
  ∧ (0 ≤ d.blockWordPhonemeAnalysis ∧ d.blockWordPhonemeAnalysis ≤ 100)
  ∧ (0 ≤ d.postProcessing ∧ d.postProcessing ≤ 100)
  ∧ d.overall = calculateOverall d

/-! ## Concrete fixtures used by counterexamples and witnesses -/

/-- A concrete `clean_json_response` oracle: every content parses to one TEXT
block carrying the content. -/
def parseOracle : String → List Block := fun s => [{ btype := "TEXT", text := s }]

/-- A chunk whose first API attempt succeeds. -/
def okChunkEnv : ChunkEnv := { attempts := [some "content", some "content", some "content"] }

/-- A chunk all of whose three API attempts (initial + 2 retries) raise. -/
def failChunkEnv : ChunkEnv := { attempts := [none, none, none] }

/-- A v2 router state with one active job `"J1"` mid-transformation. -/
def v2DemoState : V2State :=
  { activeJobs := ["J1"],
    cancelledTasks := [],
    registry := { progress := some (stageSnapshot .blockTransformation 50),
                  resultStored := false, resultWrites := 0 },
    publishedResults := [], publishedFailures := [] }

/-- A registry state whose job already carries the terminal
`COMPLETED`/`COMPLETED` snapshot and a stored result. -/
def completedRegistry : RegistryState :=
  { progress := some (managerSnapshot .completed .completedStep),
    resultStored := true, resultWrites := 1 }

/-- A default S3 configuration: a plain bucket, no presign preference. -/
def cfgDefault : S3Config :=
  { bucketOrAp := "dyslexia-pdf", region := "ap-northeast-2",
    keyPrefix := "dyslexia-results/", presignPref := none }

/-- An environment in which every external call of the PRD pipeline succeeds
and the Spring callback answers 200. -/
def allOkEnv : PipelineEnv :=
  { initialProgressOk := true, pipelineOk := true, storageProgress85Ok := true,
    uploadOk := true, presigned := none, storageProgress95Ok := true,
    publishResultOk := true, callbackUrl := some "http://spring/api/document/complete",
    callbackOutcome := .status 200, publishFailureOk := true }

/-- Like `allOkEnv`, but the Spring callback times out. -/
def callbackFailEnv : PipelineEnv :=
  { allOkEnv with callbackOutcome := .exn }

/-! ## Helper lemmas (shared evaluation facts) -/

/-- Unfolding of `stageTotalProgress`. -/
lemma stageTotalProgress_eval (s : ProcessingStage) (p : ℚ) :
    stageTotalProgress s p = s.band.1 + (s.band.2 - s.band.1) * (clampStage p / 100) := rfl

lemma clampStage_zero : clampStage 0 = 0 := by norm_num [clampStage, min_def, max_def]

lemma clampStage_hundred : clampStage 100 = 100 := by
  norm_num [clampStage, min_def, max_def]

/-- A stage update at local progress 0 stores the band's start percent. -/
lemma stageTotalProgress_zero (s : ProcessingStage) : stageTotalProgress s 0 = s.band.1 := by
  rw [stageTotalProgress_eval, clampStage_zero]; ring

/-- A stage update at local progress 100 stores the band's end percent. -/
lemma stageTotalProgress_hundred (s : ProcessingStage) :
    stageTotalProgress s 100 = s.band.2 := by
  rw [stageTotalProgress_eval, clampStage_hundred]
  have h : (100 : ℚ) / 100 = 1 := by norm_num
  rw [h]; ring

lemma take9_eval : (stepWeights.take 9).map Prod.snd = ([5,10,10,10,30,20,10,3,1] : List ℚ) := rfl

lemma filterWeights_eval :
    (stepWeights.filter (fun p => p.1 ≠ JobStep.completedStep)).map Prod.snd
      = ([5,10,10,10,30,20,10,3,1,1] : List ℚ) := rfl

/-- The weight-table percentage of the `WEBHOOK_NOTIFICATION` step is 99. -/
lemma calcPct_webhook : calculateProgressPercentage (stepIndex .webhookNotification) = 99 := by
  have h9 : stepIndex .webhookNotification = 9 := rfl
  have hl : stepWeights.length = 11 := rfl
  rw [h9]
  simp only [calculateProgressPercentage, hl, take9_eval, filterWeights_eval]
  norm_num [List.sum_cons, List.sum_nil, min_def]

/-- The weight-table percentage of the `COMPLETED` step is 100. -/
lemma calcPct_completed : calculateProgressPercentage (stepIndex .completedStep) = 100 := by
  have h10 : stepIndex .completedStep = 10 := rfl
  have hl : stepWeights.length = 11 := rfl
  rw [h10]
  simp only [calculateProgressPercentage, hl]
  norm_num

/-- The orchestrator call fails identically on every run: `job_id` is not an
attribute of `OrchestrationOptions`. -/
lemma executeCompletePipeline_error (opts : OrchestrationOptions) :
    executeCompletePipeline opts = .error "job_id" := rfl

/-- The snapshots of one v2 run, fully evaluated: the orchestrator raises, so
every run (webhook or not) stores exactly these four snapshots. -/
lemma v2RunSnapshots_eval (b : Bool) :
    v2RunSnapshots b =
      [⟨.pending, .initialization, 0⟩,
       ⟨.pending, .initialization, 0⟩,
       ⟨.preprocessing, .pdfExtraction, 5⟩,
       ⟨.failed, .completedStep, 100⟩] := by
  have h1 : stageSnapshot .initialization 0 = ⟨.pending, .initialization, 0⟩ := by
    simp only [stageSnapshot, stageJobStatus, stageJobStep, stageTotalProgress_zero,
      ProcessingStage.band]
  have h2 : stageSnapshot .pdfExtraction 0 = ⟨.preprocessing, .pdfExtraction, 5⟩ := by
    simp only [stageSnapshot, stageJobStatus, stageJobStep, stageTotalProgress_zero,
      ProcessingStage.band]
  have h3 : managerSnapshot .failed .completedStep = ⟨.failed, .completedStep, 100⟩ := by
    simp only [managerSnapshot, calcPct_completed]
  simp only [v2RunSnapshots, executeCompletePipeline_error, h1, h2, h3, createJobSnapshot,
    List.cons_append, List.nil_append]

lemma getLast?_pair {α : Type} (a b : α) : [a, b].getLast? = some b := rfl

lemma getLast?_triple {α : Type} (a b c : α) : [a, b, c].getLast? = some c := rfl

/-- A string starting with `https://` is not empty. -/
lemma https_ne_empty (a : String) : ("https://" ++ a) ≠ "" := by
  intro h
  have hd := congrArg String.data h
  rw [String.data_append] at hd
  have h8 : "https://".data = ['h','t','t','p','s',':','/','/'] := rfl
  rw [h8] at hd
  simp at hd

/-- Every domain URL built by `_build_access_url` is non-empty. -/
lemma domainUrl_ne_empty (cfg : S3Config) (k : String) : domainUrl cfg k ≠ "" := by
  unfold domainUrl
  split_ifs <;> exact https_ne_empty _

/-- The function `_build_access_url` returns a non-empty string as long as the external
presigned URL (when one is produced) is non-empty. -/
lemma buildAccessUrl_ne_empty (cfg : S3Config) (presigned : Option String) (k : String)
    (h : ∀ u, presigned = some u → u ≠ "") :
    buildAccessUrl cfg presigned k ≠ "" := by
  simp only [buildAccessUrl]
  cases presigned with
  | none => split_ifs <;> exact domainUrl_ne_empty cfg k
  | some u =>
    split_ifs
    · exact h u rfl
    · exact domainUrl_ne_empty cfg k

/-- Structure of a successful `transform_step` run: one block list per chunk,
and each entry is the parse of the content the LLM returned for that chunk. -/
lemma transformStep_ok_spec (parse : String → List Block) (llm : String → Option String) :
    ∀ (chunks : List String) (bss : List (List Block)),
      transformStep parse llm chunks = .ok bss →
      bss.length = chunks.length ∧
      ∀ i, i < chunks.length →
        ∃ c, llm (chunks.getD i "") = some c ∧ bss.getD i [] = parse c := by
  intro chunks
  induction chunks with
  | nil =>
    intro bss h
    simp only [transformStep, Except.ok.injEq] at h
    subst h
    simp
  | cons c rest ih =>
    intro bss h
    simp only [transformStep] at h
    cases hl : llm c with
    | none => rw [hl] at h; exact absurd h (by simp)
    | some content =>
      rw [hl] at h
      cases hr : transformStep parse llm rest with
      | error m => rw [hr] at h; exact absurd h (by simp)
      | ok bss' =>
        rw [hr] at h
        simp only [Except.ok.injEq] at h
        subst h
        obtain ⟨hlen, hspec⟩ := ih bss' hr
        refine ⟨by simp [hlen], ?_⟩
        intro i hi
        cases i with
        | zero => exact ⟨content, by simpa using hl, by simp⟩
        | succ n =>
          have hn : n < rest.length := by simpa using Nat.lt_of_succ_lt_succ hi
          have := hspec n hn
          simpa [List.getD_cons_succ] using this

/-- Index formula for `assemblePages`. -/
lemma assemblePages_getElem? (texts : List String) (bss : List (List Block)) (i : ℕ) :
    (assemblePages texts bss)[i]? =
      (texts[i]?).map fun t =>
        ({ pageNumber := i + 1, originalContent := t, blocks := bss.getD i [] } : Page) := by
  simp only [assemblePages, List.getElem?_map, List.getElem?_enum]
  cases texts[i]? <;> simp

lemma clampProgress_bounds (p : ℚ) : 0 ≤ clampProgress p ∧ clampProgress p ≤ 100 := by
  unfold clampProgress
  refine ⟨le_max_left 0 _, max_le (by norm_num) (min_le_left _ _)⟩

lemma progressInv_initial : ProgressInv initialProgressData := by
  norm_num [ProgressInv, initialProgressData, calculateOverall]

/-- The operation `update_progress` preserves the tracker invariant for every step name and
every (possibly out-of-range) input. -/
lemma progressInv_update (d : ProgressData) (s : String) (p : ℚ) (h : ProgressInv d) :
    ProgressInv (updateProgress d s p) := by
  obtain ⟨h1, h2, h3, h4, h5, h6⟩ := h
  have hc := clampProgress_bounds p
  unfold updateProgress
  split_ifs
  · exact ⟨hc, h2, h3, h4, h5, rfl⟩
  · exact ⟨h1, hc, h3, h4, h5, rfl⟩
  · exact ⟨h1, h2, hc, h4, h5, rfl⟩
  · exact ⟨h1, h2, h3, hc, h5, rfl⟩
  · exact ⟨h1, h2, h3, h4, hc, rfl⟩
  · exact ⟨h1, h2, h3, h4, h5, h6⟩

lemma progressInv_run (calls : List (String × ℚ)) : ProgressInv (runUpdates calls) := by
  suffices h : ∀ d, ProgressInv d →
      ProgressInv (calls.foldl (fun d c => updateProgress d c.1 c.2) d) by
    exact h initialProgressData progressInv_initial
  induction calls with
  | nil => intro d hd; exact hd
  | cons c rest ih =>
    intro d hd
    exact ih _ (progressInv_update d c.1 c.2 hd)

lemma overall_bounds (d : ProgressData) (h : ProgressInv d) :
    0 ≤ d.overall ∧ d.overall ≤ 100 := by
  obtain ⟨⟨a1, a2⟩, ⟨b1, b2⟩, ⟨c1, c2⟩, ⟨e1, e2⟩, ⟨f1, f2⟩, hov⟩ := h
  rw [hov]
  unfold calculateOverall
  constructor <;> nlinarith

/-! ## Claim theorems -/

/-- C1.  The spec requires: admitting a `job_id` whose pipeline is still
running returns HTTP 409 and spawns nothing.  The code intends this (the 409
branch and the `finally`-block deletion from `active_jobs` exist), but no
statement ever inserts a job into `PRDAsyncProcessor.active_jobs`, so
`is_job_active` is constantly false: admitting `"J1"` twice (the second time
while the first pipeline is still running — nothing has removed it) returns
202 both times and spawns two pipelines for the same JobID. -/
theorem C1_duplicate_admission_accepted :
    (processPdfAsync prdInitialState ⟨true, "a.pdf", "J1"⟩).1 = .accepted202 ∧
    isJobActive (processPdfAsync prdInitialState ⟨true, "a.pdf", "J1"⟩).2 "J1" = false ∧
    (processPdfAsync (processPdfAsync prdInitialState ⟨true, "a.pdf", "J1"⟩).2
        ⟨true, "a.pdf", "J1"⟩).1 = .accepted202 ∧
    (processPdfAsync (processPdfAsync prdInitialState ⟨true, "a.pdf", "J1"⟩).2
        ⟨true, "a.pdf", "J1"⟩).2.spawnedPipelines = ["J1", "J1"] :=
  ⟨rfl, rfl, rfl, rfl⟩

/-- C2.  In every run of `process_pdf_pipeline` (any combination of external
outcomes), a result message is published iff the run's final stored status is
`COMPLETED` and a non-empty artifact URL was obtained from the S3 upload; and
a run whose final status is `FAILED` publishes no result message.  The only
environmental assumption is that the external presigned-URL generator, when
used successfully, returns a non-empty URL. -/
theorem C2_result_iff_completed (env : PipelineEnv) (cfg : S3Config) (jobId date : String)
    (hpre : ∀ u, env.presigned = some u → u ≠ "") :
    ((∃ u, Msg.result u ∈ (processPdfPipeline env cfg jobId date).msgs) ↔
      (finalStatus (processPdfPipeline env cfg jobId date) = some .completed ∧
       ∃ u, (processPdfPipeline env cfg jobId date).obtainedUrl = some u ∧ u ≠ "")) ∧
    (finalStatus (processPdfPipeline env cfg jobId date) = some .failed →
      ∀ u, Msg.result u ∉ (processPdfPipeline env cfg jobId date).msgs) := by
  have hurl := buildAccessUrl_ne_empty cfg env.presigned (generateS3Key cfg date jobId) hpre
  obtain ⟨i, pl, s85, up, pre, s95, pr, cbu, cbo, pf⟩ := env
  simp only at hurl
  cases i <;> cases pl <;> cases s85 <;> cases up <;> cases s95 <;> cases pr <;> cases pf <;>
    simp_all [processPdfPipeline, failOutcome, finalStatus, getLast?_pair, getLast?_triple]

/-- Witness for `C2_result_iff_completed` in the all-success environment. -/
theorem C2_witness :
    ((∃ u, Msg.result u ∈ (processPdfPipeline allOkEnv cfgDefault "J1" "2025/10/12").msgs) ↔
      (finalStatus (processPdfPipeline allOkEnv cfgDefault "J1" "2025/10/12") = some .completed ∧
       ∃ u, (processPdfPipeline allOkEnv cfgDefault "J1" "2025/10/12").obtainedUrl = some u ∧
         u ≠ "")) ∧
    (finalStatus (processPdfPipeline allOkEnv cfgDefault "J1" "2025/10/12") = some .failed →
      ∀ u, Msg.result u ∉ (processPdfPipeline allOkEnv cfgDefault "J1" "2025/10/12").msgs) :=
  C2_result_iff_completed allOkEnv cfgDefault "J1" "2025/10/12" (by simp [allOkEnv])

/-- C3.  For every realizable execution path of the v2 pipeline (with or
without a webhook URL) and every pair of successive stored progress
snapshots, the global progress never decreases.  Every run stores exactly
`[0, 0, 5, 100]`: `execute_complete_pipeline` raises `AttributeError` on
every call (`OrchestrationOptions` has no `job_id` attribute, referenced at
orchestration_service.py line 699 outside the `try`), so the completion and
webhook-notification writes are dead code and the only write after the first
stage updates is `mark_failed`'s terminal snapshot at 100. -/
theorem C3_progress_monotone (hasWebhook : Bool) :
    List.Chain' (· ≤ ·) (v2ProgressTrace hasWebhook) := by
  rw [v2ProgressTrace, v2RunSnapshots_eval]
  simp only [List.map, List.chain'_cons, List.chain'_singleton]
  norm_num

/-- C4, counterexample.  The claim "a chunk whose final (retry-exhausted)
attempt fails contributes an empty block array and a partial_failure marker,
and the pipeline continues" is false: a chunk whose three API attempts all
raise makes `transform_content_to_blocks` raise (gather propagates the
exception), and likewise `transform_step` of the LCEL pipeline re-raises —
the whole transformation fails instead of continuing. -/
theorem C4_counterexample :
    transformContentToBlocks parseOracle [okChunkEnv, failChunkEnv] =
      Except.error "api call failed" ∧
    transformStep parseOracle (fun c => if c = "bad" then none else some c)
      ["good", "bad"] = Except.error "chunk failed" :=
  ⟨rfl, rfl⟩

/-- C4, amended: during TRANSFORMATION a chunk whose returned content fails
JSON parsing yields an empty block array for that chunk and processing
continues (when every chunk's API call eventually succeeds, the result is
`ok` with one — possibly empty — block list per chunk, namely the parse of
the first successful attempt's content); but a chunk whose final retry
attempt fails propagates its error and the whole transformation fails.  No
`partial_failure` marker exists anywhere in the code. -/
theorem C4_amended (parse : String → List Block) (envs : List ChunkEnv) :
    ((∀ e ∈ envs, (backoffRetry (e.attempts.take 3)).isSome = true) →
      transformContentToBlocks parse envs =
        .ok (envs.map fun e => parse ((backoffRetry (e.attempts.take 3)).getD ""))) ∧
    ((∃ e ∈ envs, backoffRetry (e.attempts.take 3) = none) →
      transformContentToBlocks parse envs = .error "api call failed") := by
  induction envs with
  | nil => simp [transformContentToBlocks]
  | cons e rest ih =>
    constructor
    · intro hall
      have he := hall e (by simp)
      obtain ⟨c, hc⟩ := Option.isSome_iff_exists.mp he
      have hrest := ih.1 (fun x hx => hall x (by simp [hx]))
      simp [transformContentToBlocks, processSingleChunk, hc, hrest]
    · intro hex
      obtain ⟨x, hx, hnone⟩ := hex
      rcases List.mem_cons.mp hx with rfl | hx'
      · simp [transformContentToBlocks, processSingleChunk, hnone]
      · cases hce : backoffRetry (e.attempts.take 3) with
        | none => simp [transformContentToBlocks, processSingleChunk, hce]
        | some c =>
          have hrest := ih.2 ⟨x, hx', hnone⟩
          simp [transformContentToBlocks, processSingleChunk, hce, hrest]

/-- Witness for `C4_amended`: one all-success chunk yields `ok`, one
all-failure chunk makes the whole transformation error. -/
theorem C4_amended_witness :
    transformContentToBlocks parseOracle [okChunkEnv] =
      .ok ([okChunkEnv].map fun e => parseOracle ((backoffRetry (e.attempts.take 3)).getD "")) ∧
    transformContentToBlocks parseOracle [failChunkEnv] = .error "api call failed" :=
  ⟨(C4_amended parseOracle [okChunkEnv]).1 (by simp [okChunkEnv, backoffRetry]),
   (C4_amended parseOracle [failChunkEnv]).2 ⟨failChunkEnv, by simp, rfl⟩⟩

/-- C5, counterexample.  The claim "the job transitions to a terminal
CANCELLED status (a value of the job-status sum type)" is false: the
`JobStatus` enum of `job_manager.py` has no `CANCELLED` member (neither
`"cancelled"` nor `"CANCELLED"` is among its values), and `cancel_job` on the
concrete active job `"J1"` returns success while leaving the stored registry
snapshot untouched — no status transition is recorded at all. -/
theorem C5_counterexample :
    "cancelled" ∉ jobStatusValues ∧
    "CANCELLED" ∉ jobStatusValues ∧
    (cancelJob v2DemoState "J1").1 = .success ∧
    (cancelJob v2DemoState "J1").2.registry = v2DemoState.registry :=
  ⟨by decide, by decide, rfl, rfl⟩

/-- C5, amended: cancelling an active job cancels its asyncio task and removes
it from the active set, writes no job status (there is no CANCELLED status
value), and publishes neither a result nor a failure message. -/
theorem C5_amended (st : V2State) (jobId : String)
    (hnd : st.activeJobs.Nodup) (hin : jobId ∈ st.activeJobs) :
    (cancelJob st jobId).1 = .success ∧
    jobId ∉ (cancelJob st jobId).2.activeJobs ∧
    jobId ∈ (cancelJob st jobId).2.cancelledTasks ∧
    (cancelJob st jobId).2.registry = st.registry ∧
    (cancelJob st jobId).2.publishedResults = st.publishedResults ∧
    (cancelJob st jobId).2.publishedFailures = st.publishedFailures := by
  have hc : cancelJob st jobId =
      (.success, { st with
                   activeJobs := st.activeJobs.erase jobId,
                   cancelledTasks := st.cancelledTasks ++ [jobId] }) := by
    unfold cancelJob
    rw [if_pos hin]
  rw [hc]
  exact ⟨rfl, hnd.not_mem_erase, by simp, rfl, rfl, rfl⟩

/-- Witness for `C5_amended` at the concrete state `v2DemoState`. -/
theorem C5_amended_witness :
    (cancelJob v2DemoState "J1").1 = .success ∧
    "J1" ∉ (cancelJob v2DemoState "J1").2.activeJobs ∧
    "J1" ∈ (cancelJob v2DemoState "J1").2.cancelledTasks ∧
    (cancelJob v2DemoState "J1").2.registry = v2DemoState.registry ∧
    (cancelJob v2DemoState "J1").2.publishedResults = v2DemoState.publishedResults ∧
    (cancelJob v2DemoState "J1").2.publishedFailures = v2DemoState.publishedFailures :=
  C5_amended v2DemoState "J1" (by decide) (by decide)

/-- C6, counterexample.  The claim "the document-complete callback is retried
up to 3 attempts with exponential backoff and jitter" is false:
`send_document_complete` performs exactly one HTTP POST — on an environment
whose first attempt answers 500 and whose second would answer 200, the code
returns failure after 1 request while the spec's 3-attempt retry policy would
succeed after 2. -/
theorem C6_counterexample :
    (sendDocumentComplete (some "http://cb") (.status 500)).2 = 1 ∧
    (sendDocumentComplete (some "http://cb") (.status 500)).1 = false ∧
    specRetryCallback (some "http://cb") [.status 500, .status 200, .status 200] =
      (true, 2) :=
  ⟨rfl, rfl, rfl⟩

/-- C6, amended: the document-complete callback is attempted exactly once
(when a callback URL is configured; zero times otherwise), and on every run
in which the pipeline reaches the result publication the final stored status
is `COMPLETED` regardless of the callback's outcome — callback failure never
reverses the `COMPLETED` state. -/
theorem C6_amended (env : PipelineEnv) (cfg : S3Config) (jobId date : String)
    (h : env.initialProgressOk = true ∧ env.pipelineOk = true ∧
         env.storageProgress85Ok = true ∧ env.uploadOk = true ∧
         env.storageProgress95Ok = true ∧ env.publishResultOk = true) :
    finalStatus (processPdfPipeline env cfg jobId date) = some .completed ∧
    (processPdfPipeline env cfg jobId date).callbackRequests =
      (if env.callbackUrl.isSome then 1 else 0) := by
  obtain ⟨i, pl, s85, up, pre, s95, pr, cbu, cbo, pf⟩ := env
  obtain ⟨h1, h2, h3, h4, h5, h6⟩ := h
  simp only at h1 h2 h3 h4 h5 h6
  subst h1 h2 h3 h4 h5 h6
  refine ⟨by simp [processPdfPipeline, finalStatus, getLast?_pair], ?_⟩
  cases cbu <;> cases cbo <;>
    simp [processPdfPipeline, sendDocumentComplete]

/-- Witness for `C6_amended`: with a configured callback URL whose single POST
raises, the status still ends `COMPLETED` and exactly one request was made. -/
theorem C6_amended_witness :
    finalStatus (processPdfPipeline callbackFailEnv cfgDefault "J1" "2025/10/12") =
      some .completed ∧
    (processPdfPipeline callbackFailEnv cfgDefault "J1" "2025/10/12").callbackRequests =
      (if callbackFailEnv.callbackUrl.isSome then 1 else 0) :=
  C6_amended callbackFailEnv cfgDefault "J1" "2025/10/12" ⟨rfl, rfl, rfl, rfl, rfl, rfl⟩

/-- C7, counterexample.  The claim "the result write is guarded by the
precondition that the job's current status is non-terminal (a second write
while/after terminal status is rejected)" is false: on a registry state whose
job already carries the terminal `COMPLETED` snapshot and a stored result,
`JobManager.save_result` succeeds again and performs a second result write. -/
theorem C7_counterexample :
    (managerSnapshot .completed .completedStep).status.isTerminal = true ∧
    (saveResult completedRegistry).1 = true ∧
    (saveResult completedRegistry).2.resultWrites = 2 :=
  ⟨rfl, rfl, rfl⟩

/-- C7, amended: `save_result` is guarded only by the *existence* of a
progress snapshot — it succeeds and writes the result iff one exists,
regardless of whether the current status is terminal — and both branches of
`_handle_completion` invoke exactly one result write. -/
theorem C7_amended (st : RegistryState) :
    ((saveResult st).1 = st.progress.isSome) ∧
    ((saveResult st).2.resultWrites =
      st.resultWrites + (if st.progress.isSome then 1 else 0)) ∧
    ((handleCompletion false st).resultWrites =
      st.resultWrites + (if st.progress.isSome then 1 else 0)) ∧
    ((handleCompletion true st).resultWrites =
      st.resultWrites + (if st.progress.isSome then 1 else 0)) := by
  cases h : st.progress <;>
    simp [saveResult, handleCompletion, updateProgressState, h]

/-- Witness for `C7_amended` at the concrete terminal registry state. -/
theorem C7_amended_witness :
    ((saveResult completedRegistry).1 = completedRegistry.progress.isSome) ∧
    ((saveResult completedRegistry).2.resultWrites =
      completedRegistry.resultWrites +
        (if completedRegistry.progress.isSome then 1 else 0)) ∧
    ((handleCompletion false completedRegistry).resultWrites =
      completedRegistry.resultWrites +
        (if completedRegistry.progress.isSome then 1 else 0)) ∧
    ((handleCompletion true completedRegistry).resultWrites =
      completedRegistry.resultWrites +
        (if completedRegistry.progress.isSome then 1 else 0)) :=
  C7_amended completedRegistry

/-- C8.  For every snapshot stored by a realizable run of the v2 pipeline
(webhook or not), `global_progress = 100` implies the snapshot's status is
terminal.  The only reachable snapshot with progress 100 is the `FAILED`
one written by `mark_failed` after `execute_complete_pipeline` raises
`AttributeError` (the `TRANSFORMING`/`FINAL_PROCESSING` 100-write of
`_execute_final_processing` is dead code behind that unconditional raise). -/
theorem C8_progress100_terminal (b : Bool) (s : Snapshot)
    (hs : s ∈ v2RunSnapshots b) (h100 : s.progress = 100) :
    s.status.isTerminal = true := by
  rw [v2RunSnapshots_eval] at hs
  simp only [List.mem_cons, List.not_mem_nil, or_false] at hs
  rcases hs with rfl | rfl | rfl | rfl <;>
    first
      | rfl
      | (exfalso; revert h100; norm_num)

/-- Witness for `C8_progress100_terminal` at the reachable `FAILED` snapshot. -/
theorem C8_progress100_witness :
    (⟨.failed, .completedStep, 100⟩ : Snapshot).status.isTerminal = true :=
  C8_progress100_terminal false ⟨.failed, .completedStep, 100⟩
    (by rw [v2RunSnapshots_eval]; simp) rfl

/-- C9.  Page order equals chunk order: on every successful run of
`transform_step`, the document assembled by `final_assembly_step` has one
page per chunk; page `i` (1-based `page_number = i+1` at 0-based index `i`)
carries the text of chunk `i` and exactly the blocks produced from chunk `i`
(the parse of the content the LLM returned for that chunk). -/
theorem C9_page_order (parse : String → List Block) (llm : String → Option String)
    (chunks : List String) (bss : List (List Block))
    (h : transformStep parse llm chunks = .ok bss) :
    bss.length = chunks.length ∧
    (assemblePages chunks bss).length = chunks.length ∧
    (∀ i, (assemblePages chunks bss)[i]? =
      (chunks[i]?).map fun t =>
        ({ pageNumber := i + 1, originalContent := t, blocks := bss.getD i [] } : Page)) ∧
    (∀ i, i < chunks.length →
      ∃ c, llm (chunks.getD i "") = some c ∧ bss.getD i [] = parse c) := by
  obtain ⟨hlen, hspec⟩ := transformStep_ok_spec parse llm chunks bss h
  refine ⟨hlen, ?_, assemblePages_getElem? chunks bss, hspec⟩
  simp [assemblePages]

/-- Witness for `C9_page_order` on a concrete two-chunk run. -/
theorem C9_witness :
    ([[⟨"TEXT", "c1"⟩], [⟨"TEXT", "c2"⟩]] : List (List Block)).length =
      (["c1", "c2"] : List String).length ∧
    (assemblePages ["c1", "c2"] [[⟨"TEXT", "c1"⟩], [⟨"TEXT", "c2"⟩]])[1]? =
      some { pageNumber := 2, originalContent := "c2", blocks := [⟨"TEXT", "c2"⟩] } := by
  have h := C9_page_order parseOracle (fun c => some c) ["c1", "c2"]
    [[⟨"TEXT", "c1"⟩], [⟨"TEXT", "c2"⟩]] rfl
  refine ⟨h.1, ?_⟩
  have h2 := h.2.2.1 1
  simpa [List.getD] using h2

/-- C10.  For every sequence of `update_progress` calls with arbitrary
(possibly out-of-range) rational inputs, every stored per-step value lies in
`[0, 100]`, the stored `overall` equals the fixed weighted average
`0.20·preprocessing + 0.40·block_transformation + 0.15·phoneme_analysis +
0.15·block_word_phoneme_analysis + 0.10·post_processing` of the stored
values, and hence `overall` lies in `[0, 100]`. -/
theorem C10_tracker_invariant (calls : List (String × ℚ)) :
    ProgressInv (runUpdates calls) ∧
    (runUpdates calls).overall = calculateOverall (runUpdates calls) ∧
    0 ≤ (runUpdates calls).overall ∧ (runUpdates calls).overall ≤ 100 := by
  have hinv := progressInv_run calls
  have hb := overall_bounds _ hinv
  exact ⟨hinv, hinv.2.2.2.2.2, hb.1, hb.2⟩

end DyslexiaAI
